import Mathlib

/-!
Verification of the TWU re-illustration prototype transformation engine.

The repository holds two copies of the pipeline: the original prototype
module (twu_reillustration_prototype.py) and a copy inlined in the HTTP
layer (api/index.py).  Both copies of the relevant code are embedded here:
definitions suffixed `_proto` come from twu_reillustration_prototype.py,
definitions suffixed `_api` from api/index.py.  Strings and rational
guidance parameters are modelled with String and the rational numbers.
-/

set_option maxHeartbeats 1000000

/-- PanelCategory enum from both source files. -/
inductive PanelCategory where
  | narrator_single
  | therapist_single
  | client_single
  | dialogue_therapy
  | dialogue_domestic
  | multi_character
  | conceptual_diagram
  | diagram_only
deriving DecidableEq, Repr

/-- EmotionBand enum from both source files. -/
inductive EmotionBand where
  | distressed
  | struggling
  | neutral
  | hopeful
  | positive
deriving DecidableEq, Repr

/-- The .value string of each EmotionBand member, as declared in the enum. -/
def EmotionBand.value : EmotionBand → String
  | .distressed => "distressed"
  | .struggling => "struggling"
  | .neutral => "neutral"
  | .hopeful => "hopeful"
  | .positive => "positive"

/-- CharacterRole enum from both source files. -/
inductive CharacterRole where
  | client
  | therapist
  | narrator
  | partner
  | supporting
deriving DecidableEq, Repr

/-- Character dataclass from both source files. -/
structure Character where
  role : CharacterRole
  name : String
  gender : String
  approximate_age : String
  emotion : EmotionBand
  expression_description : String
  pose_description : String
  clothing_description : String
  position_in_frame : String
  is_speaking : Bool
deriving DecidableEq, Repr

/-- TherapeuticElement dataclass from both source files. -/
structure TherapeuticElement where
  element_type : String
  content_description : String
  therapeutic_purpose : String
  must_preserve : Bool := true
deriving DecidableEq, Repr

/-- PanelMetadata dataclass from both source files. -/
structure PanelMetadata where
  panel_id : String
  source_file : String
  page_number : Nat
  panel_position : String
  category : PanelCategory
  scene_description : String
  setting : String
  lighting : String
  mood : String
  characters : List Character
  narrative_stage : String
  therapeutic_skill : String
  therapeutic_elements : List TherapeuticElement
  speech_bubbles : List String
  text_overlays : List String
  locked_elements : List String
  adaptable_elements : List String
  required_emotion_preservation : Bool := true
  required_composition_preservation : Bool := true
  requires_clinical_review : Bool := false
deriving DecidableEq, Repr

/-- TransformationSpec dataclass from both source files.  Python dicts of
string keys are modelled as association lists in insertion order. -/
structure TransformationSpec where
  source_panel_id : String
  target_variant : String
  character_transforms : List (String × List (String × String))
  preserve_pose : Bool := true
  preserve_expression_type : Bool := true
  preserve_composition : Bool := true
  preserve_lighting : Bool := true
  preserve_therapeutic_elements : Bool := true
  controlnet_mode : String := "canny"
  controlnet_strength : ℚ := 0.8
  denoise_strength : ℚ := 0.4
  min_structural_similarity : ℚ := 0.85
  emotion_must_match : Bool := true
deriving DecidableEq, Repr

/-- Python str.startswith, on the underlying character lists. -/
def pyStartsWith (s pre : String) : Bool :=
  pre.data.isPrefixOf s.data

/-- Substring occurrence test on character lists (recursion over the
haystack; at each position test whether the needle is a prefix). -/
def hasSub (needle : List Char) : List Char → Bool
  | [] => needle.isEmpty
  | c :: rest => needle.isPrefixOf (c :: rest) || hasSub needle rest

/-- Python membership test `sub in s` for strings. -/
def pyIn (sub s : String) : Bool :=
  hasSub sub.data s.data

/-- Python dict lookup d.get(k) as an Option: first pair carrying the key
(dictInsert keeps keys unique, so this is the dict entry). -/
def dictGet (d : List (String × α)) (k : String) : Option α :=
  match d with
  | [] => none
  | p :: t => if p.1 = k then some p.2 else dictGet t k

/-- Python dict assignment d[k] = v: replace in place when the key exists,
append otherwise. -/
def dictInsert (d : List (String × α)) (k : String) (v : α) :
    List (String × α) :=
  if k ∈ d.map Prod.fst then
    d.map (fun p => if p.1 = k then (k, v) else p)
  else
    d ++ [(k, v)]

/-- The loop shared by every branch of generate_spec:
for char in panel.characters, if char.name in target_characters then
character_transforms[char.name] = entry(char). -/
def buildTransforms (targets : List String)
    (entry : Character → List (String × String)) (chars : List Character) :
    List (String × List (String × String)) :=
  chars.foldl
    (fun d c => if c.name ∈ targets then dictInsert d c.name (entry c) else d)
    []

/-- Default target resolution shared by both copies of generate_spec:
if target_characters is None, take the names of the client characters. -/
def resolveTargets (panel : PanelMetadata) :
    Option (List String) → List String
  | some ts => ts
  | none =>
    (panel.characters.filter (fun c => decide (c.role = CharacterRole.client))).map
      (fun c => c.name)

/-- GENDER_SWAP_PRESET entry for direction male_to_female. -/
def presetMaleToFemale : String × List (String × String) × String :=
  ("female", [("Leo", "Leah"), ("Ian", "Dr. Sarah")],
    "Transform to female presentation while preserving age, expression, and pose")

/-- GENDER_SWAP_PRESET entry for direction female_to_male. -/
def presetFemaleToMale : String × List (String × String) × String :=
  ("male", [("Ali", "Alex"), ("Rebecca", "Robert")],
    "Transform to male presentation while preserving age, expression, and pose")

/-- ETHNICITY_PRESETS lookup with fallback to diverse_v1, mirroring
ETHNICITY_PRESETS.get(variant_type, ETHNICITY_PRESETS["diverse_v1"]).
Returns the (skin_tone, features) pair shared by both source copies. -/
def ethnicityLookup (v : String) : String × String :=
  if v = "diverse_v1" then ("medium brown", "South Asian features")
  else if v = "diverse_v2" then ("dark brown", "African features")
  else if v = "diverse_v3" then ("light", "East Asian features")
  else ("medium brown", "South Asian features")

/-- AGE_PRESETS entry for direction younger:
(approximate_age, age_range, appearance_notes). -/
def presetAgeYounger : String × String × String :=
  ("young_adult", "25-35",
    "Younger appearance while preserving expression and pose")

/-- AGE_PRESETS entry for direction older. -/
def presetAgeOlder : String × String × String :=
  ("senior", "65-75",
    "Older appearance while preserving expression and pose")

/-- name_transform.get(char.name, char.name) for the gender presets. -/
def nameTransform (table : List (String × String)) (n : String) : String :=
  match dictGet table n with
  | some m => m
  | none => n

/-- generate_spec of TransformationSpecGenerator in
twu_reillustration_prototype.py. -/
def generate_spec_proto (panel : PanelMetadata) (variant_type : String)
    (target_characters : Option (List String)) : TransformationSpec :=
  let targets := resolveTargets panel target_characters
  let character_transforms :=
    if pyStartsWith variant_type "gender_swap" then
      let preset :=
        if pyIn "female" variant_type then presetMaleToFemale
        else presetFemaleToMale
      buildTransforms targets
        (fun c =>
          [("gender", preset.1),
           ("new_name", nameTransform preset.2.1 c.name),
           ("appearance_notes", preset.2.2),
           ("preserve_emotion", c.emotion.value),
           ("preserve_pose", c.pose_description)])
        panel.characters
    else if pyStartsWith variant_type "diverse" then
      let preset := ethnicityLookup variant_type
      buildTransforms targets
        (fun c =>
          [("skin_tone", preset.1),
           ("features", preset.2),
           ("appearance_notes", "Preserve expression, age, and pose exactly"),
           ("preserve_emotion", c.emotion.value),
           ("preserve_pose", c.pose_description)])
        panel.characters
    else if pyStartsWith variant_type "age" then
      let preset :=
        if pyIn "younger" variant_type then presetAgeYounger
        else presetAgeOlder
      buildTransforms targets
        (fun c =>
          [("approximate_age", preset.1),
           ("age_range", preset.2.1),
           ("appearance_notes", preset.2.2),
           ("preserve_emotion", c.emotion.value),
           ("preserve_pose", c.pose_description)])
        panel.characters
    else []
  let guidance : String × ℚ × ℚ :=
    if panel.category = PanelCategory.conceptual_diagram ∨
        panel.category = PanelCategory.diagram_only then
      ("canny", 0.9, 0.3)
    else if panel.category = PanelCategory.dialogue_therapy ∨
        panel.category = PanelCategory.dialogue_domestic then
      ("openpose", 0.75, 0.45)
    else
      ("lineart", 0.8, 0.4)
  { source_panel_id := panel.panel_id
    target_variant := variant_type
    character_transforms := character_transforms
    preserve_pose := true
    preserve_expression_type := true
    preserve_composition := true
    preserve_lighting := true
    preserve_therapeutic_elements := true
    controlnet_mode := guidance.1
    controlnet_strength := guidance.2.1
    denoise_strength := guidance.2.2
    min_structural_similarity :=
      if panel.requires_clinical_review = true ∨
          panel.category = PanelCategory.conceptual_diagram then 0.85 else 0.80
    emotion_must_match := true }

/-- generate_spec of TransformationSpecGenerator in api/index.py.  The
diverse and age entries carry no appearance_notes field there, the
preservation booleans come from the dataclass defaults, and the threshold
looks only at requires_clinical_review. -/
def generate_spec_api (panel : PanelMetadata) (variant_type : String)
    (target_characters : Option (List String)) : TransformationSpec :=
  let targets := resolveTargets panel target_characters
  let character_transforms :=
    if pyStartsWith variant_type "gender_swap" then
      let preset :=
        if pyIn "female" variant_type then presetMaleToFemale
        else presetFemaleToMale
      buildTransforms targets
        (fun c =>
          [("gender", preset.1),
           ("new_name", nameTransform preset.2.1 c.name),
           ("appearance_notes", preset.2.2),
           ("preserve_emotion", c.emotion.value),
           ("preserve_pose", c.pose_description)])
        panel.characters
    else if pyStartsWith variant_type "diverse" then
      let preset := ethnicityLookup variant_type
      buildTransforms targets
        (fun c =>
          [("skin_tone", preset.1),
           ("features", preset.2),
           ("preserve_emotion", c.emotion.value),
           ("preserve_pose", c.pose_description)])
        panel.characters
    else if pyStartsWith variant_type "age" then
      let preset :=
        if pyIn "younger" variant_type then presetAgeYounger
        else presetAgeOlder
      buildTransforms targets
        (fun c =>
          [("approximate_age", preset.1),
           ("age_range", preset.2.1),
           ("preserve_emotion", c.emotion.value),
           ("preserve_pose", c.pose_description)])
        panel.characters
    else []
  let guidance : String × ℚ × ℚ :=
    if panel.category = PanelCategory.conceptual_diagram ∨
        panel.category = PanelCategory.diagram_only then
      ("canny", 0.9, 0.3)
    else if panel.category = PanelCategory.dialogue_therapy ∨
        panel.category = PanelCategory.dialogue_domestic then
      ("openpose", 0.75, 0.45)
    else
      ("lineart", 0.8, 0.4)
  { source_panel_id := panel.panel_id
    target_variant := variant_type
    character_transforms := character_transforms
    controlnet_mode := guidance.1
    controlnet_strength := guidance.2.1
    denoise_strength := guidance.2.2
    min_structural_similarity :=
      if panel.requires_clinical_review then 0.85 else 0.80 }

/-- The list of valid variant ids checked by POST /api/transform in
api/index.py. -/
def validVariants : List String :=
  ["gender_swap_female", "gender_swap_male", "diverse_v1", "diverse_v2",
   "diverse_v3", "age_younger", "age_older"]

/-- A minimal single-client panel used in several concrete checks. -/
def tinyClientChar : Character where
  role := CharacterRole.client
  name := "Leo"
  gender := "male"
  approximate_age := "middle_aged"
  emotion := EmotionBand.distressed
  expression_description := "e"
  pose_description := "lying"
  clothing_description := "c"
  position_in_frame := "center"
  is_speaking := false

/-- A minimal panel of category client_single holding only tinyClientChar. -/
def tinyPanel : PanelMetadata where
  panel_id := "p"
  source_file := "f"
  page_number := 1
  panel_position := "top"
  category := PanelCategory.client_single
  scene_description := "s"
  setting := "set"
  lighting := "l"
  mood := "m"
  characters := [tinyClientChar]
  narrative_stage := "n"
  therapeutic_skill := "t"
  therapeutic_elements := []
  speech_bubbles := []
  text_overlays := []
  locked_elements := []
  adaptable_elements := []

example : (generate_spec_api tinyPanel "age_older" none).character_transforms =
    [("Leo", [("approximate_age", "senior"), ("age_range", "65-75"),
      ("preserve_emotion", "distressed"), ("preserve_pose", "lying")])] := by
  decide

/-- The Leo character of the third sample panel in
create_sample_metadata_for_demo of api/index.py. -/
def apiSampleLeoBed : Character where
  role := CharacterRole.client
  name := "Leo"
  gender := "male"
  approximate_age := "middle_aged"
  emotion := EmotionBand.distressed
  expression_description := "tired eyes, furrowed brow, hand on forehead"
  pose_description := "lying in bed, head on pillow"
  clothing_description := "sleepwear/t-shirt"
  position_in_frame := "center"
  is_speaking := false

/-- The third sample panel, insomnia_L1_P3_bed_distress, from
create_sample_metadata_for_demo of api/index.py. -/
def apiSamplePanel3 : PanelMetadata where
  panel_id := "insomnia_L1_P3_bed_distress"
  source_file := "lesson1_page-03.png"
  page_number := 3
  panel_position := "top_right"
  category := PanelCategory.client_single
  scene_description := "Leo lying awake in bed at night, unable to sleep"
  setting := "bedroom at night, dark with bedside lamp glow"
  lighting := "dim nighttime, warm lamp light"
  mood := "frustrated, exhausted, anxious"
  characters := [apiSampleLeoBed]
  narrative_stage := "problem_introduction"
  therapeutic_skill := "psychoeducation"
  therapeutic_elements :=
    [{ element_type := "thought_bubble"
       content_description := "Racing anxious thoughts about not sleeping"
       therapeutic_purpose := "Illustrate cognitive component of insomnia" }]
  speech_bubbles := []
  text_overlays := ["I would lie awake worrying..."]
  locked_elements := ["distressed expression", "bedroom setting", "lying pose"]
  adaptable_elements := ["character demographics", "bedroom decor"]
  requires_clinical_review := false

/-- The character line of build_prompt in twu_reillustration_prototype.py.
transform = spec.character_transforms.get(char.name, dict()); if the
transform is non-empty the transformed fields are substituted, otherwise
the original attributes are rendered. -/
def charLine_proto (tfs : List (String × List (String × String)))
    (c : Character) : String :=
  let transform := (dictGet tfs c.name).getD []
  if transform.isEmpty then
    c.name ++ ": " ++ c.gender ++ ", " ++ c.approximate_age ++
      ", expression showing " ++ c.emotion.value ++ " (" ++
      c.expression_description ++ ")" ++ ", " ++ c.pose_description ++
      ", wearing " ++ c.clothing_description ++
      ", positioned " ++ c.position_in_frame
  else
    let gender := (dictGet transform "gender").getD c.gender
    let new_name := (dictGet transform "new_name").getD c.name
    let age_desc := (dictGet transform "approximate_age").getD c.approximate_age
    let skin_tone := (dictGet transform "skin_tone").getD ""
    let features := (dictGet transform "features").getD ""
    new_name ++ ": " ++ gender ++ ", " ++ age_desc ++
      (if skin_tone ≠ "" then ", " ++ skin_tone ++ " skin tone" else "") ++
      (if features ≠ "" then ", " ++ features else "") ++
      ", expression showing " ++ c.emotion.value ++ " (" ++
      c.expression_description ++ ")" ++ ", " ++ c.pose_description ++
      ", wearing " ++ c.clothing_description ++
      ", positioned " ++ c.position_in_frame

/-- The character line of build_prompt in api/index.py: a shortened
rendering that never mentions age, skin tone, features or clothing. -/
def charLine_api (tfs : List (String × List (String × String)))
    (c : Character) : String :=
  let transform := (dictGet tfs c.name).getD []
  let head :=
    if transform.isEmpty then
      c.name ++ ": " ++ c.gender ++ ", expression showing " ++ c.emotion.value
    else
      let gender := (dictGet transform "gender").getD c.gender
      let new_name := (dictGet transform "new_name").getD c.name
      new_name ++ ": " ++ gender ++ ", expression showing " ++ c.emotion.value
  head ++ ", " ++ c.pose_description ++ ", positioned " ++ c.position_in_frame

/-- The scene block shared by both build_prompt copies. -/
def scenePartsOf (panel : PanelMetadata) : List String :=
  ["Clinical therapy illustration depicting: " ++ panel.scene_description,
   "Setting: " ++ panel.setting,
   "Lighting: " ++ panel.lighting,
   "Mood: " ++ panel.mood]

/-- positive_prompt of build_prompt in api/index.py: style preamble,
scene block and one character line per panel character, newline joined. -/
def positivePrompt_api (panel : PanelMetadata)
    (spec : TransformationSpec) : String :=
  String.intercalate "\n"
    (["Professional illustration in clean vector style with consistent line weights,\nflat color fills with subtle gradients for shading, warm but professional color palette.\nStyle matches THIS WAY UP CBT course illustrations.",
      "", "Scene:"] ++ scenePartsOf panel ++ ["", "Characters:"] ++
      panel.characters.map (charLine_api spec.character_transforms))

/-- positive_prompt of build_prompt in twu_reillustration_prototype.py:
as the api copy but with the fuller character lines and a trailing
therapeutic-elements block. -/
def positivePrompt_proto (panel : PanelMetadata)
    (spec : TransformationSpec) : String :=
  let therapeutic_parts :=
    (panel.therapeutic_elements.filter (fun e => e.must_preserve)).map
      (fun e => "MUST INCLUDE: " ++ e.element_type ++ " - " ++
        e.content_description)
  String.intercalate "\n"
    (["Professional illustration in clean vector style with consistent line weights, \nflat color fills with subtle gradients for shading, warm but professional color palette. \nStyle matches THIS WAY UP CBT course illustrations.",
      "", "Scene:"] ++ scenePartsOf panel ++ ["", "Characters:"] ++
      panel.characters.map (charLine_proto spec.character_transforms) ++
      ["", "Therapeutic elements to preserve:"] ++
      (if therapeutic_parts.isEmpty then ["None specific"]
       else therapeutic_parts))

/-! ### Helper lemmas about the string and dictionary models -/

theorem isPrefixOf_append_self (n y : List Char) :
    n.isPrefixOf (n ++ y) = true := by
  induction n with
  | nil => cases y <;> rfl
  | cons a t ih => simp [List.isPrefixOf, ih]

theorem hasSub_self_append (n y : List Char) : hasSub n (n ++ y) = true := by
  cases n with
  | nil =>
    cases y with
    | nil => rfl
    | cons c t => simp [hasSub, List.isPrefixOf]
  | cons a t =>
    show hasSub (a :: t) (a :: (t ++ y)) = true
    simp [hasSub, List.isPrefixOf, isPrefixOf_append_self]

theorem hasSub_append_left (n : List Char) :
    ∀ (x h : List Char), hasSub n h = true → hasSub n (x ++ h) = true := by
  intro x
  induction x with
  | nil => intro h hh; simpa using hh
  | cons c t ih =>
    intro h hh
    show hasSub n (c :: (t ++ h)) = true
    simp only [hasSub, Bool.or_eq_true]
    exact Or.inr (ih h hh)

theorem dictGet_map_replace {α : Type} (k k' : String) (v : α)
    (h : k' ≠ k) :
    ∀ d : List (String × α),
      dictGet (d.map (fun p => if p.1 = k then (k, v) else p)) k' =
        dictGet d k' := by
  intro d
  induction d with
  | nil => rfl
  | cons p t ih =>
    by_cases hp : p.1 = k
    · have hk : ¬ k = k' := fun e => h e.symm
      have hp' : ¬ p.1 = k' := fun e => h (hp ▸ e).symm
      simp [dictGet, hp, hk, hp', ih]
    · simp [dictGet, hp, ih]

theorem dictGet_map_replace_self {α : Type} (k : String) (v : α) :
    ∀ d : List (String × α), k ∈ d.map Prod.fst →
      dictGet (d.map (fun p => if p.1 = k then (k, v) else p)) k = some v := by
  intro d
  induction d with
  | nil => intro hk; simp at hk
  | cons p t ih =>
    intro hk
    by_cases hp : p.1 = k
    · simp [dictGet, hp]
    · have hk' : k ∈ t.map Prod.fst := by
        simp only [List.map_cons, List.mem_cons] at hk
        rcases hk with hk | hk
        · exact absurd hk.symm hp
        · exact hk
      simp [dictGet, hp, ih hk']

theorem dictGet_append_single_ne {α : Type} (k k' : String) (v : α)
    (h : k' ≠ k) :
    ∀ d : List (String × α), dictGet (d ++ [(k, v)]) k' = dictGet d k' := by
  intro d
  induction d with
  | nil =>
    have hk : ¬ k = k' := fun e => h e.symm
    simp [dictGet, hk]
  | cons p t ih =>
    by_cases hp : p.1 = k'
    · simp [dictGet, hp]
    · simp [dictGet, hp, ih]

theorem dictGet_append_single_self {α : Type} (k : String) (v : α) :
    ∀ d : List (String × α), k ∉ d.map Prod.fst →
      dictGet (d ++ [(k, v)]) k = some v := by
  intro d
  induction d with
  | nil => intro _; simp [dictGet]
  | cons p t ih =>
    intro hk
    simp only [List.map_cons, List.mem_cons, not_or] at hk
    have hp : ¬ p.1 = k := fun e => hk.1 e.symm
    simp [dictGet, hp, ih hk.2]

theorem dictGet_dictInsert_self {α : Type}
    (d : List (String × α)) (k : String) (v : α) :
    dictGet (dictInsert d k v) k = some v := by
  unfold dictInsert
  split
  · exact dictGet_map_replace_self k v d (by assumption)
  · exact dictGet_append_single_self k v d (by assumption)

theorem dictGet_dictInsert_ne {α : Type}
    (d : List (String × α)) (k k' : String) (v : α) (h : k' ≠ k) :
    dictGet (dictInsert d k v) k' = dictGet d k' := by
  unfold dictInsert
  split
  · exact dictGet_map_replace k k' v h d
  · exact dictGet_append_single_ne k k' v h d

theorem map_fst_replace {α : Type} (k : String) (v : α) :
    ∀ d : List (String × α),
      (d.map (fun p => if p.1 = k then (k, v) else p)).map Prod.fst =
        d.map Prod.fst := by
  intro d
  induction d with
  | nil => rfl
  | cons p t ih =>
    by_cases hp : p.1 = k
    · simp [hp, ih]
    · simp [hp, ih]

theorem mem_keys_dictInsert {α : Type}
    (d : List (String × α)) (k : String) (v : α) (m : String) :
    (m ∈ (dictInsert d k v).map Prod.fst) ↔
      m ∈ d.map Prod.fst ∨ m = k := by
  unfold dictInsert
  split
  · rename_i hk
    rw [map_fst_replace]
    constructor
    · exact Or.inl
    · rintro (hm | rfl)
      · exact hm
      · exact hk
  · simp

theorem mem_keys_buildTransforms_aux (targets : List String)
    (entry : Character → List (String × String)) :
    ∀ (chars : List Character)
      (d : List (String × List (String × String))) (m : String),
      (m ∈ (chars.foldl
        (fun d c =>
          if c.name ∈ targets then dictInsert d c.name (entry c) else d)
        d).map Prod.fst) ↔
        m ∈ d.map Prod.fst ∨ ∃ c, c ∈ chars ∧ c.name = m ∧ m ∈ targets := by
  intro chars
  induction chars with
  | nil => simp
  | cons c0 rest ih =>
    intro d m
    simp only [List.foldl_cons]
    rw [ih]
    by_cases h : c0.name ∈ targets
    · simp only [if_pos h, mem_keys_dictInsert, List.mem_cons]
      constructor
      · rintro ((hm | rfl) | ⟨c, hc, rfl, hm⟩)
        · exact Or.inl hm
        · exact Or.inr ⟨c0, Or.inl rfl, rfl, h⟩
        · exact Or.inr ⟨c, Or.inr hc, rfl, hm⟩
      · rintro (hm | ⟨c, hc | hc, rfl, hm⟩)
        · exact Or.inl (Or.inl hm)
        · exact Or.inl (Or.inr (by rw [hc]))
        · exact Or.inr ⟨c, hc, rfl, hm⟩
    · simp only [if_neg h, List.mem_cons]
      constructor
      · rintro (hm | ⟨c, hc, rfl, hm⟩)
        · exact Or.inl hm
        · exact Or.inr ⟨c, Or.inr hc, rfl, hm⟩
      · rintro (hm | ⟨c, hc | hc, rfl, hm⟩)
        · exact Or.inl hm
        · exact absurd (hc ▸ hm) h
        · exact Or.inr ⟨c, hc, rfl, hm⟩

theorem mem_keys_buildTransforms (targets : List String)
    (entry : Character → List (String × String))
    (chars : List Character) (m : String) :
    (m ∈ (buildTransforms targets entry chars).map Prod.fst) ↔
      ∃ c, c ∈ chars ∧ c.name = m ∧ m ∈ targets := by
  unfold buildTransforms
  rw [mem_keys_buildTransforms_aux]
  simp

theorem dictGet_foldl_not_mem (targets : List String)
    (entry : Character → List (String × String)) :
    ∀ (chars : List Character)
      (d : List (String × List (String × String))) (k : String),
      (∀ c ∈ chars, c.name ≠ k) →
      dictGet (chars.foldl
        (fun d c =>
          if c.name ∈ targets then dictInsert d c.name (entry c) else d)
        d) k = dictGet d k := by
  intro chars
  induction chars with
  | nil => intro d k _; rfl
  | cons c0 rest ih =>
    intro d k h
    simp only [List.foldl_cons]
    rw [ih _ k (fun c hc => h c (List.mem_cons_of_mem _ hc))]
    by_cases hc0 : c0.name ∈ targets
    · rw [if_pos hc0]
      exact dictGet_dictInsert_ne _ _ _ _
        (Ne.symm (h c0 (List.mem_cons_self _ _)))
    · rw [if_neg hc0]

theorem dictGet_foldl_mem (targets : List String)
    (entry : Character → List (String × String)) :
    ∀ (chars : List Character)
      (d : List (String × List (String × String))) (k : String),
      k ∈ targets → (∃ c, c ∈ chars ∧ c.name = k) →
      ∃ c, c ∈ chars ∧ c.name = k ∧
        dictGet (chars.foldl
          (fun d c =>
            if c.name ∈ targets then dictInsert d c.name (entry c) else d)
          d) k = some (entry c) := by
  intro chars
  induction chars with
  | nil => intro d k _ hex; simp at hex
  | cons c0 rest ih =>
    intro d k hkt hex
    by_cases hrest : ∃ c, c ∈ rest ∧ c.name = k
    · obtain ⟨c, hc, hcn, hg⟩ :=
        ih (if c0.name ∈ targets then dictInsert d c0.name (entry c0) else d)
          k hkt hrest
      refine ⟨c, List.mem_cons_of_mem _ hc, hcn, ?_⟩
      simpa only [List.foldl_cons] using hg
    · have hc0 : c0.name = k := by
        obtain ⟨c, hc, hcn⟩ := hex
        rcases List.mem_cons.mp hc with rfl | hmem
        · exact hcn
        · exact absurd ⟨c, hmem, hcn⟩ hrest
      refine ⟨c0, List.mem_cons_self _ _, hc0, ?_⟩
      have hnone : ∀ c ∈ rest, c.name ≠ k := fun c hc e => hrest ⟨c, hc, e⟩
      simp only [List.foldl_cons]
      rw [dictGet_foldl_not_mem targets entry rest _ k hnone]
      subst hc0
      rw [if_pos hkt]
      exact dictGet_dictInsert_self _ _ _

theorem dictGet_buildTransforms (targets : List String)
    (entry : Character → List (String × String))
    (chars : List Character) (k : String)
    (hkt : k ∈ targets) (hex : ∃ c, c ∈ chars ∧ c.name = k) :
    ∃ c, c ∈ chars ∧ c.name = k ∧
      dictGet (buildTransforms targets entry chars) k = some (entry c) := by
  unfold buildTransforms
  exact dictGet_foldl_mem targets entry chars [] k hkt hex

/-- The per-character transform record of the gender_swap branch in
twu_reillustration_prototype.py (identical in api/index.py). -/
def genderEntry (preset : String × List (String × String) × String)
    (c : Character) : List (String × String) :=
  [("gender", preset.1),
   ("new_name", nameTransform preset.2.1 c.name),
   ("appearance_notes", preset.2.2),
   ("preserve_emotion", c.emotion.value),
   ("preserve_pose", c.pose_description)]

/-- The per-character transform record of the diverse branch in
twu_reillustration_prototype.py. -/
def diverseEntry_proto (preset : String × String) (c : Character) :
    List (String × String) :=
  [("skin_tone", preset.1),
   ("features", preset.2),
   ("appearance_notes", "Preserve expression, age, and pose exactly"),
   ("preserve_emotion", c.emotion.value),
   ("preserve_pose", c.pose_description)]

/-- The per-character transform record of the diverse branch in
api/index.py. -/
def diverseEntry_api (preset : String × String) (c : Character) :
    List (String × String) :=
  [("skin_tone", preset.1),
   ("features", preset.2),
   ("preserve_emotion", c.emotion.value),
   ("preserve_pose", c.pose_description)]

/-- The per-character transform record of the age branch in
twu_reillustration_prototype.py. -/
def ageEntry_proto (preset : String × String × String) (c : Character) :
    List (String × String) :=
  [("approximate_age", preset.1),
   ("age_range", preset.2.1),
   ("appearance_notes", preset.2.2),
   ("preserve_emotion", c.emotion.value),
   ("preserve_pose", c.pose_description)]

/-- The per-character transform record of the age branch in api/index.py. -/
def ageEntry_api (preset : String × String × String) (c : Character) :
    List (String × String) :=
  [("approximate_age", preset.1),
   ("age_range", preset.2.1),
   ("preserve_emotion", c.emotion.value),
   ("preserve_pose", c.pose_description)]

theorem transforms_proto_gender (p : PanelMetadata) (v : String)
    (t : Option (List String)) (h : pyStartsWith v "gender_swap" = true) :
    (generate_spec_proto p v t).character_transforms =
      buildTransforms (resolveTargets p t)
        (genderEntry
          (if pyIn "female" v then presetMaleToFemale else presetFemaleToMale))
        p.characters := by
  simp only [generate_spec_proto, h, if_true]
  rfl

theorem transforms_proto_diverse (p : PanelMetadata) (v : String)
    (t : Option (List String)) (h1 : pyStartsWith v "gender_swap" = false)
    (h2 : pyStartsWith v "diverse" = true) :
    (generate_spec_proto p v t).character_transforms =
      buildTransforms (resolveTargets p t)
        (diverseEntry_proto (ethnicityLookup v)) p.characters := by
  simp only [generate_spec_proto, h1, h2, if_true, Bool.false_eq_true,
    if_false]
  rfl

theorem transforms_proto_age (p : PanelMetadata) (v : String)
    (t : Option (List String)) (h1 : pyStartsWith v "gender_swap" = false)
    (h2 : pyStartsWith v "diverse" = false)
    (h3 : pyStartsWith v "age" = true) :
    (generate_spec_proto p v t).character_transforms =
      buildTransforms (resolveTargets p t)
        (ageEntry_proto
          (if pyIn "younger" v then presetAgeYounger else presetAgeOlder))
        p.characters := by
  simp only [generate_spec_proto, h1, h2, h3, if_true, Bool.false_eq_true,
    if_false]
  rfl

theorem transforms_proto_none (p : PanelMetadata) (v : String)
    (t : Option (List String)) (h1 : pyStartsWith v "gender_swap" = false)
    (h2 : pyStartsWith v "diverse" = false)
    (h3 : pyStartsWith v "age" = false) :
    (generate_spec_proto p v t).character_transforms = [] := by
  simp only [generate_spec_proto, h1, h2, h3, Bool.false_eq_true, if_false]

theorem transforms_api_gender (p : PanelMetadata) (v : String)
    (t : Option (List String)) (h : pyStartsWith v "gender_swap" = true) :
    (generate_spec_api p v t).character_transforms =
      buildTransforms (resolveTargets p t)
        (genderEntry
          (if pyIn "female" v then presetMaleToFemale else presetFemaleToMale))
        p.characters := by
  simp only [generate_spec_api, h, if_true]
  rfl

theorem transforms_api_diverse (p : PanelMetadata) (v : String)
    (t : Option (List String)) (h1 : pyStartsWith v "gender_swap" = false)
    (h2 : pyStartsWith v "diverse" = true) :
    (generate_spec_api p v t).character_transforms =
      buildTransforms (resolveTargets p t)
        (diverseEntry_api (ethnicityLookup v)) p.characters := by
  simp only [generate_spec_api, h1, h2, if_true, Bool.false_eq_true,
    if_false]
  rfl

theorem transforms_api_age (p : PanelMetadata) (v : String)
    (t : Option (List String)) (h1 : pyStartsWith v "gender_swap" = false)
    (h2 : pyStartsWith v "diverse" = false)
    (h3 : pyStartsWith v "age" = true) :
    (generate_spec_api p v t).character_transforms =
      buildTransforms (resolveTargets p t)
        (ageEntry_api
          (if pyIn "younger" v then presetAgeYounger else presetAgeOlder))
        p.characters := by
  simp only [generate_spec_api, h1, h2, h3, if_true, Bool.false_eq_true,
    if_false]
  rfl

theorem transforms_api_none (p : PanelMetadata) (v : String)
    (t : Option (List String)) (h1 : pyStartsWith v "gender_swap" = false)
    (h2 : pyStartsWith v "diverse" = false)
    (h3 : pyStartsWith v "age" = false) :
    (generate_spec_api p v t).character_transforms = [] := by
  simp only [generate_spec_api, h1, h2, h3, Bool.false_eq_true, if_false]

theorem min_sim_proto (p : PanelMetadata) (v : String)
    (t : Option (List String)) :
    (generate_spec_proto p v t).min_structural_similarity =
      if p.requires_clinical_review = true ∨
          p.category = PanelCategory.conceptual_diagram then (0.85 : ℚ)
      else 0.80 := rfl

theorem min_sim_api (p : PanelMetadata) (v : String)
    (t : Option (List String)) :
    (generate_spec_api p v t).min_structural_similarity =
      if p.requires_clinical_review then (0.85 : ℚ) else 0.80 := rfl

/-! ### Claim theorems -/

theorem preservation_flags_both (p : PanelMetadata) (v : String)
    (t : Option (List String)) :
    (generate_spec_proto p v t).preserve_pose = true ∧
    (generate_spec_proto p v t).preserve_expression_type = true ∧
    (generate_spec_proto p v t).preserve_composition = true ∧
    (generate_spec_proto p v t).preserve_lighting = true ∧
    (generate_spec_proto p v t).preserve_therapeutic_elements = true ∧
    (generate_spec_proto p v t).emotion_must_match = true ∧
    (generate_spec_api p v t).preserve_pose = true ∧
    (generate_spec_api p v t).preserve_expression_type = true ∧
    (generate_spec_api p v t).preserve_composition = true ∧
    (generate_spec_api p v t).preserve_lighting = true ∧
    (generate_spec_api p v t).preserve_therapeutic_elements = true ∧
    (generate_spec_api p v t).emotion_must_match = true :=
  ⟨rfl, rfl, rfl, rfl, rfl, rfl, rfl, rfl, rfl, rfl, rfl, rfl⟩

/-- Claim C3: for every panel, variant string and target_characters
argument, both copies of generate_spec return a spec whose five
preservation booleans and emotion_must_match flag are all true. -/
theorem claim_C3_preservation_invariant (p : PanelMetadata) (v : String)
    (t : Option (List String)) :
    (generate_spec_proto p v t).preserve_pose = true ∧
    (generate_spec_proto p v t).preserve_expression_type = true ∧
    (generate_spec_proto p v t).preserve_composition = true ∧
    (generate_spec_proto p v t).preserve_lighting = true ∧
    (generate_spec_proto p v t).preserve_therapeutic_elements = true ∧
    (generate_spec_proto p v t).emotion_must_match = true ∧
    (generate_spec_api p v t).preserve_pose = true ∧
    (generate_spec_api p v t).preserve_expression_type = true ∧
    (generate_spec_api p v t).preserve_composition = true ∧
    (generate_spec_api p v t).preserve_lighting = true ∧
    (generate_spec_api p v t).preserve_therapeutic_elements = true ∧
    (generate_spec_api p v t).emotion_must_match = true :=
  preservation_flags_both p v t

theorem guidance_table_both (p : PanelMetadata) (v : String)
    (t : Option (List String)) :
    ((generate_spec_proto p v t).controlnet_mode,
      (generate_spec_proto p v t).controlnet_strength,
      (generate_spec_proto p v t).denoise_strength) =
      (if p.category = PanelCategory.conceptual_diagram ∨
          p.category = PanelCategory.diagram_only then
        ("canny", (0.9 : ℚ), (0.3 : ℚ))
      else if p.category = PanelCategory.dialogue_therapy ∨
          p.category = PanelCategory.dialogue_domestic then
        ("openpose", 0.75, 0.45)
      else ("lineart", 0.8, 0.4)) ∧
    ((generate_spec_api p v t).controlnet_mode,
      (generate_spec_api p v t).controlnet_strength,
      (generate_spec_api p v t).denoise_strength) =
      (if p.category = PanelCategory.conceptual_diagram ∨
          p.category = PanelCategory.diagram_only then
        ("canny", (0.9 : ℚ), (0.3 : ℚ))
      else if p.category = PanelCategory.dialogue_therapy ∨
          p.category = PanelCategory.dialogue_domestic then
        ("openpose", 0.75, 0.45)
      else ("lineart", 0.8, 0.4)) := by
  obtain ⟨a1, a2, a3, a4, cat, a6, a7, a8, a9, a10, a11, a12, a13, a14, a15,
    a16, a17, a18, a19, a20⟩ := p
  cases cat <;> exact ⟨rfl, rfl⟩

/-- Claim C4: both copies of generate_spec pick the ControlNet guidance
triple from the fixed category table: canny 0.9 0.3 for
conceptual_diagram and diagram_only, openpose 0.75 0.45 for
dialogue_therapy and dialogue_domestic, lineart 0.8 0.4 otherwise. -/
theorem claim_C4_guidance_table (p : PanelMetadata) (v : String)
    (t : Option (List String)) :
    ((generate_spec_proto p v t).controlnet_mode,
      (generate_spec_proto p v t).controlnet_strength,
      (generate_spec_proto p v t).denoise_strength) =
      (if p.category = PanelCategory.conceptual_diagram ∨
          p.category = PanelCategory.diagram_only then
        ("canny", (0.9 : ℚ), (0.3 : ℚ))
      else if p.category = PanelCategory.dialogue_therapy ∨
          p.category = PanelCategory.dialogue_domestic then
        ("openpose", 0.75, 0.45)
      else ("lineart", 0.8, 0.4)) ∧
    ((generate_spec_api p v t).controlnet_mode,
      (generate_spec_api p v t).controlnet_strength,
      (generate_spec_api p v t).denoise_strength) =
      (if p.category = PanelCategory.conceptual_diagram ∨
          p.category = PanelCategory.diagram_only then
        ("canny", (0.9 : ℚ), (0.3 : ℚ))
      else if p.category = PanelCategory.dialogue_therapy ∨
          p.category = PanelCategory.dialogue_domestic then
        ("openpose", 0.75, 0.45)
      else ("lineart", 0.8, 0.4)) :=
  guidance_table_both p v t

/-- Claim C7: on the api sample panel insomnia_L1_P3_bed_distress with
variant age_older and default targets, the api generate_spec returns
exactly the expected Leo transform entry, lineart guidance and threshold
0.80. -/
theorem claim_C7_concrete_scenario :
    (generate_spec_api apiSamplePanel3 "age_older" none).character_transforms =
      [("Leo", [("approximate_age", "senior"), ("age_range", "65-75"),
        ("preserve_emotion", "distressed"),
        ("preserve_pose", "lying in bed, head on pillow")])] ∧
    (generate_spec_api apiSamplePanel3 "age_older" none).controlnet_mode =
      "lineart" ∧
    (generate_spec_api apiSamplePanel3 "age_older" none).min_structural_similarity =
      0.80 :=
  ⟨by decide, rfl, rfl⟩

theorem keys_subset_proto (p : PanelMetadata) (v : String)
    (t : Option (List String)) :
    (generate_spec_proto p v t).character_transforms.map Prod.fst ⊆
      p.characters.map Character.name := by
  intro m hm
  cases hg : pyStartsWith v "gender_swap" with
  | true =>
    rw [transforms_proto_gender p v t hg, mem_keys_buildTransforms] at hm
    obtain ⟨c, hc, rfl, _⟩ := hm
    exact List.mem_map_of_mem _ hc
  | false =>
    cases hd : pyStartsWith v "diverse" with
    | true =>
      rw [transforms_proto_diverse p v t hg hd,
        mem_keys_buildTransforms] at hm
      obtain ⟨c, hc, rfl, _⟩ := hm
      exact List.mem_map_of_mem _ hc
    | false =>
      cases ha : pyStartsWith v "age" with
      | true =>
        rw [transforms_proto_age p v t hg hd ha,
          mem_keys_buildTransforms] at hm
        obtain ⟨c, hc, rfl, _⟩ := hm
        exact List.mem_map_of_mem _ hc
      | false =>
        rw [transforms_proto_none p v t hg hd ha] at hm
        simp at hm

theorem keys_subset_api (p : PanelMetadata) (v : String)
    (t : Option (List String)) :
    (generate_spec_api p v t).character_transforms.map Prod.fst ⊆
      p.characters.map Character.name := by
  intro m hm
  cases hg : pyStartsWith v "gender_swap" with
  | true =>
    rw [transforms_api_gender p v t hg, mem_keys_buildTransforms] at hm
    obtain ⟨c, hc, rfl, _⟩ := hm
    exact List.mem_map_of_mem _ hc
  | false =>
    cases hd : pyStartsWith v "diverse" with
    | true =>
      rw [transforms_api_diverse p v t hg hd,
        mem_keys_buildTransforms] at hm
      obtain ⟨c, hc, rfl, _⟩ := hm
      exact List.mem_map_of_mem _ hc
    | false =>
      cases ha : pyStartsWith v "age" with
      | true =>
        rw [transforms_api_age p v t hg hd ha,
          mem_keys_buildTransforms] at hm
        obtain ⟨c, hc, rfl, _⟩ := hm
        exact List.mem_map_of_mem _ hc
      | false =>
        rw [transforms_api_none p v t hg hd ha] at hm
        simp at hm

/-- Claim C2: for every panel, each of the 7 valid variant ids and any
target_characters argument, the key set of character_transforms is a
subset of the panel character names, in both copies of generate_spec. -/
theorem claim_C2_keys_subset (p : PanelMetadata) (v : String)
    (t : Option (List String)) (_hv : v ∈ validVariants) :
    (generate_spec_proto p v t).character_transforms.map Prod.fst ⊆
      p.characters.map Character.name ∧
    (generate_spec_api p v t).character_transforms.map Prod.fst ⊆
      p.characters.map Character.name :=
  ⟨keys_subset_proto p v t, keys_subset_api p v t⟩

/-- Witness for claim C2 at the bed-distress sample panel with the
age_older variant. -/
theorem claim_C2_witness :
    "age_older" ∈ validVariants ∧
    ((generate_spec_proto apiSamplePanel3 "age_older" none).character_transforms.map
        Prod.fst ⊆ apiSamplePanel3.characters.map Character.name ∧
      (generate_spec_api apiSamplePanel3 "age_older" none).character_transforms.map
        Prod.fst ⊆ apiSamplePanel3.characters.map Character.name) :=
  ⟨by decide, claim_C2_keys_subset apiSamplePanel3 "age_older" none (by decide)⟩

theorem valid_variant_prefixes (v : String) (hv : v ∈ validVariants) :
    pyStartsWith v "gender_swap" = true ∨
    (pyStartsWith v "gender_swap" = false ∧
      pyStartsWith v "diverse" = true) ∨
    (pyStartsWith v "gender_swap" = false ∧
      pyStartsWith v "diverse" = false ∧ pyStartsWith v "age" = true) := by
  simp only [validVariants, List.mem_cons, List.mem_singleton,
    List.not_mem_nil, or_false] at hv
  rcases hv with rfl | rfl | rfl | rfl | rfl | rfl | rfl
  · exact Or.inl (by decide)
  · exact Or.inl (by decide)
  · exact Or.inr (Or.inl (by decide))
  · exact Or.inr (Or.inl (by decide))
  · exact Or.inr (Or.inl (by decide))
  · exact Or.inr (Or.inr (by decide))
  · exact Or.inr (Or.inr (by decide))

theorem transforms_proto_build (p : PanelMetadata) (v : String)
    (t : Option (List String)) (hv : v ∈ validVariants) :
    ∃ e, (generate_spec_proto p v t).character_transforms =
      buildTransforms (resolveTargets p t) e p.characters := by
  rcases valid_variant_prefixes v hv with h | ⟨h1, h2⟩ | ⟨h1, h2, h3⟩
  · exact ⟨_, transforms_proto_gender p v t h⟩
  · exact ⟨_, transforms_proto_diverse p v t h1 h2⟩
  · exact ⟨_, transforms_proto_age p v t h1 h2 h3⟩

theorem transforms_api_build (p : PanelMetadata) (v : String)
    (t : Option (List String)) (hv : v ∈ validVariants) :
    ∃ e, (generate_spec_api p v t).character_transforms =
      buildTransforms (resolveTargets p t) e p.characters := by
  rcases valid_variant_prefixes v hv with h | ⟨h1, h2⟩ | ⟨h1, h2, h3⟩
  · exact ⟨_, transforms_api_gender p v t h⟩
  · exact ⟨_, transforms_api_diverse p v t h1 h2⟩
  · exact ⟨_, transforms_api_age p v t h1 h2 h3⟩

theorem mem_resolveTargets_none (p : PanelMetadata) (m : String) :
    (∃ c, c ∈ p.characters ∧ c.name = m ∧ m ∈ resolveTargets p none) ↔
      m ∈ resolveTargets p none := by
  constructor
  · rintro ⟨c, _, _, hm⟩
    exact hm
  · intro hm
    have hm' := hm
    simp only [resolveTargets, List.mem_map, List.mem_filter] at hm'
    obtain ⟨c, ⟨hc, _⟩, rfl⟩ := hm'
    exact ⟨c, hc, rfl, hm⟩

/-- Claim C5: for every panel and each of the 7 valid variant ids, when
target_characters is omitted the key set of character_transforms is
exactly the set of names of the client-role characters of the panel, in
both copies of generate_spec. -/
theorem claim_C5_default_targets (p : PanelMetadata) (v : String)
    (hv : v ∈ validVariants) (m : String) :
    ((m ∈ (generate_spec_proto p v none).character_transforms.map Prod.fst) ↔
      m ∈ (p.characters.filter
        (fun c => decide (c.role = CharacterRole.client))).map
          Character.name) ∧
    ((m ∈ (generate_spec_api p v none).character_transforms.map Prod.fst) ↔
      m ∈ (p.characters.filter
        (fun c => decide (c.role = CharacterRole.client))).map
          Character.name) := by
  obtain ⟨e1, he1⟩ := transforms_proto_build p v none hv
  obtain ⟨e2, he2⟩ := transforms_api_build p v none hv
  constructor
  · rw [he1, mem_keys_buildTransforms]
    exact mem_resolveTargets_none p m
  · rw [he2, mem_keys_buildTransforms]
    exact mem_resolveTargets_none p m

/-- Witness for claim C5: on the bed-distress sample panel with
variant age_older, the name Leo is a key exactly because Leo is the
client of the panel. -/
theorem claim_C5_witness :
    "age_older" ∈ validVariants ∧
    ((("Leo" ∈
        (generate_spec_proto apiSamplePanel3 "age_older" none).character_transforms.map
          Prod.fst) ↔
      "Leo" ∈ (apiSamplePanel3.characters.filter
        (fun c => decide (c.role = CharacterRole.client))).map
          Character.name) ∧
     (("Leo" ∈
        (generate_spec_api apiSamplePanel3 "age_older" none).character_transforms.map
          Prod.fst) ↔
      "Leo" ∈ (apiSamplePanel3.characters.filter
        (fun c => decide (c.role = CharacterRole.client))).map
          Character.name)) :=
  ⟨by decide,
    claim_C5_default_targets apiSamplePanel3 "age_older" (by decide) "Leo"⟩

/-- Claim C8: a variant string matching none of the three family prefixes
is accepted by both copies of generate_spec and yields an empty
character_transforms mapping, while every other spec field is still
derived from the panel as usual. -/
theorem claim_C8_unrecognized_variant (p : PanelMetadata) (v : String)
    (t : Option (List String))
    (h1 : pyStartsWith v "gender_swap" = false)
    (h2 : pyStartsWith v "diverse" = false)
    (h3 : pyStartsWith v "age" = false) :
    ((generate_spec_proto p v t).character_transforms = [] ∧
     (generate_spec_api p v t).character_transforms = []) ∧
    ((generate_spec_proto p v t).source_panel_id = p.panel_id ∧
     (generate_spec_proto p v t).target_variant = v ∧
     (generate_spec_api p v t).source_panel_id = p.panel_id ∧
     (generate_spec_api p v t).target_variant = v) ∧
    (((generate_spec_proto p v t).controlnet_mode,
      (generate_spec_proto p v t).controlnet_strength,
      (generate_spec_proto p v t).denoise_strength) =
      (if p.category = PanelCategory.conceptual_diagram ∨
          p.category = PanelCategory.diagram_only then
        ("canny", (0.9 : ℚ), (0.3 : ℚ))
      else if p.category = PanelCategory.dialogue_therapy ∨
          p.category = PanelCategory.dialogue_domestic then
        ("openpose", 0.75, 0.45)
      else ("lineart", 0.8, 0.4)) ∧
     ((generate_spec_api p v t).controlnet_mode,
      (generate_spec_api p v t).controlnet_strength,
      (generate_spec_api p v t).denoise_strength) =
      (if p.category = PanelCategory.conceptual_diagram ∨
          p.category = PanelCategory.diagram_only then
        ("canny", (0.9 : ℚ), (0.3 : ℚ))
      else if p.category = PanelCategory.dialogue_therapy ∨
          p.category = PanelCategory.dialogue_domestic then
        ("openpose", 0.75, 0.45)
      else ("lineart", 0.8, 0.4))) ∧
    ((generate_spec_proto p v t).min_structural_similarity =
      (if p.requires_clinical_review = true ∨
          p.category = PanelCategory.conceptual_diagram then (0.85 : ℚ)
       else 0.80) ∧
     (generate_spec_api p v t).min_structural_similarity =
      (if p.requires_clinical_review then (0.85 : ℚ) else 0.80)) ∧
    ((generate_spec_proto p v t).preserve_pose = true ∧
     (generate_spec_proto p v t).preserve_expression_type = true ∧
     (generate_spec_proto p v t).preserve_composition = true ∧
     (generate_spec_proto p v t).preserve_lighting = true ∧
     (generate_spec_proto p v t).preserve_therapeutic_elements = true ∧
     (generate_spec_proto p v t).emotion_must_match = true ∧
     (generate_spec_api p v t).preserve_pose = true ∧
     (generate_spec_api p v t).preserve_expression_type = true ∧
     (generate_spec_api p v t).preserve_composition = true ∧
     (generate_spec_api p v t).preserve_lighting = true ∧
     (generate_spec_api p v t).preserve_therapeutic_elements = true ∧
     (generate_spec_api p v t).emotion_must_match = true) := by
  refine ⟨⟨transforms_proto_none p v t h1 h2 h3,
    transforms_api_none p v t h1 h2 h3⟩,
    ⟨rfl, rfl, rfl, rfl⟩, guidance_table_both p v t,
    ⟨min_sim_proto p v t, min_sim_api p v t⟩,
    preservation_flags_both p v t⟩

/-- Witness for claim C8 with the unrecognized variant string style_v1 on
the bed-distress sample panel. -/
theorem claim_C8_witness :
    (pyStartsWith "style_v1" "gender_swap" = false ∧
     pyStartsWith "style_v1" "diverse" = false ∧
     pyStartsWith "style_v1" "age" = false) ∧
    (generate_spec_proto apiSamplePanel3 "style_v1" none).character_transforms =
      [] ∧
    (generate_spec_api apiSamplePanel3 "style_v1" none).character_transforms =
      [] :=
  ⟨by decide,
    (claim_C8_unrecognized_variant apiSamplePanel3 "style_v1" none
      (by decide) (by decide) (by decide)).1⟩

/-- tinyPanel with category conceptual_diagram and the clinical-review
flag left false: the input on which the two threshold rules part ways. -/
def conceptPanel : PanelMetadata :=
  { tinyPanel with category := PanelCategory.conceptual_diagram }

/-- Claim C1: the prototype generate_spec puts min_structural_similarity
at 0.85 exactly when the clinical-review flag is set or the category is
conceptual_diagram, and at 0.80 otherwise; the api copy of generate_spec
returns 0.80 on a conceptual_diagram panel without the flag, against the
documented intent. -/
theorem claim_C1_threshold :
    (∀ (p : PanelMetadata) (v : String) (t : Option (List String)),
      ((generate_spec_proto p v t).min_structural_similarity = 0.85 ↔
        (p.requires_clinical_review = true ∨
          p.category = PanelCategory.conceptual_diagram)) ∧
      (¬(p.requires_clinical_review = true ∨
          p.category = PanelCategory.conceptual_diagram) →
        (generate_spec_proto p v t).min_structural_similarity = 0.80)) ∧
    (conceptPanel.requires_clinical_review = false ∧
     conceptPanel.category = PanelCategory.conceptual_diagram ∧
     (generate_spec_api conceptPanel "age_older" none).min_structural_similarity =
       0.80 ∧
     (generate_spec_api conceptPanel "age_older" none).min_structural_similarity ≠
       0.85) := by
  have hne : (0.80 : ℚ) ≠ 0.85 := by norm_num
  have h80 : (generate_spec_api conceptPanel "age_older"
      none).min_structural_similarity = 0.80 := rfl
  refine ⟨fun p v t => ?_, rfl, rfl, h80, by rw [h80]; exact hne⟩
  simp only [min_sim_proto]
  by_cases h : p.requires_clinical_review = true ∨
      p.category = PanelCategory.conceptual_diagram
  · rw [if_pos h]
    exact ⟨⟨fun _ => h, fun _ => rfl⟩, fun hn => absurd h hn⟩
  · rw [if_neg h]
    exact ⟨⟨fun he => absurd he hne, fun hh => absurd hh h⟩, fun _ => rfl⟩

/-- Claim C6, amended: a character absent from character_transforms is
rendered by the prototype build_prompt with its original gender, age,
emotion value and pose text present verbatim in its line; the api
build_prompt line keeps gender, emotion value and pose but omits the
approximate_age field. -/
theorem claim_C6_amended (tfs : List (String × List (String × String)))
    (c : Character) (h : dictGet tfs c.name = none) :
    (pyIn c.gender (charLine_proto tfs c) = true ∧
     pyIn c.approximate_age (charLine_proto tfs c) = true ∧
     pyIn c.emotion.value (charLine_proto tfs c) = true ∧
     pyIn c.pose_description (charLine_proto tfs c) = true) ∧
    (pyIn c.gender (charLine_api tfs c) = true ∧
     pyIn c.emotion.value (charLine_api tfs c) = true ∧
     pyIn c.pose_description (charLine_api tfs c) = true) := by
  have hline_p : charLine_proto tfs c =
      c.name ++ ": " ++ c.gender ++ ", " ++ c.approximate_age ++
        ", expression showing " ++ c.emotion.value ++ " (" ++
        c.expression_description ++ ")" ++ ", " ++ c.pose_description ++
        ", wearing " ++ c.clothing_description ++
        ", positioned " ++ c.position_in_frame := by
    simp [charLine_proto, h]
  have hline_a : charLine_api tfs c =
      c.name ++ ": " ++ c.gender ++ ", expression showing " ++
        c.emotion.value ++ ", " ++ c.pose_description ++
        ", positioned " ++ c.position_in_frame := by
    simp [charLine_api, h]
  refine ⟨⟨?_, ?_, ?_, ?_⟩, ?_, ?_, ?_⟩
  · rw [hline_p]
    simp only [pyIn, String.data_append, List.append_assoc]
    iterate 2 apply hasSub_append_left
    exact hasSub_self_append _ _
  · rw [hline_p]
    simp only [pyIn, String.data_append, List.append_assoc]
    iterate 4 apply hasSub_append_left
    exact hasSub_self_append _ _
  · rw [hline_p]
    simp only [pyIn, String.data_append, List.append_assoc]
    iterate 6 apply hasSub_append_left
    exact hasSub_self_append _ _
  · rw [hline_p]
    simp only [pyIn, String.data_append, List.append_assoc]
    iterate 11 apply hasSub_append_left
    exact hasSub_self_append _ _
  · rw [hline_a]
    simp only [pyIn, String.data_append, List.append_assoc]
    iterate 2 apply hasSub_append_left
    exact hasSub_self_append _ _
  · rw [hline_a]
    simp only [pyIn, String.data_append, List.append_assoc]
    iterate 4 apply hasSub_append_left
    exact hasSub_self_append _ _
  · rw [hline_a]
    simp only [pyIn, String.data_append, List.append_assoc]
    iterate 6 apply hasSub_append_left
    exact hasSub_self_append _ _

/-- Counterexample for claim C6 as stated: on a concrete character with
an empty transform mapping, the api build_prompt line does not contain
the original approximate_age text. -/
theorem claim_C6_counterexample :
    dictGet ([] : List (String × List (String × String)))
      tinyClientChar.name = none ∧
    pyIn tinyClientChar.approximate_age (charLine_api [] tinyClientChar) =
      false :=
  ⟨rfl, by decide⟩

/-- Witness for the amended claim C6 at a concrete character with an
empty transform mapping. -/
theorem claim_C6_witness :
    dictGet ([] : List (String × List (String × String)))
      tinyClientChar.name = none ∧
    ((pyIn tinyClientChar.gender (charLine_proto [] tinyClientChar) = true ∧
      pyIn tinyClientChar.approximate_age
        (charLine_proto [] tinyClientChar) = true ∧
      pyIn tinyClientChar.emotion.value
        (charLine_proto [] tinyClientChar) = true ∧
      pyIn tinyClientChar.pose_description
        (charLine_proto [] tinyClientChar) = true) ∧
     (pyIn tinyClientChar.gender (charLine_api [] tinyClientChar) = true ∧
      pyIn tinyClientChar.emotion.value
        (charLine_api [] tinyClientChar) = true ∧
      pyIn tinyClientChar.pose_description
        (charLine_api [] tinyClientChar) = true)) :=
  ⟨rfl, claim_C6_amended [] tinyClientChar rfl⟩

/-- Remove the appearance_notes field from one transform record. -/
def notesFilter (kvs : List (String × String)) : List (String × String) :=
  kvs.filter (fun kv => decide (kv.1 ≠ "appearance_notes"))

/-- Remove the appearance_notes field from every transform record of a
character_transforms mapping. -/
def stripNotes (tfs : List (String × List (String × String))) :
    List (String × List (String × String)) :=
  tfs.map (fun p => (p.1, notesFilter p.2))

theorem keys_stripNotes (tfs : List (String × List (String × String))) :
    (stripNotes tfs).map Prod.fst = tfs.map Prod.fst := by
  induction tfs with
  | nil => rfl
  | cons p t ih => simp [stripNotes, ih]

theorem stripNotes_map_replace (k : String) (v : List (String × String)) :
    ∀ d : List (String × List (String × String)),
      stripNotes (d.map (fun p => if p.1 = k then (k, v) else p)) =
        (stripNotes d).map
          (fun p => if p.1 = k then (k, notesFilter v) else p) := by
  intro d
  induction d with
  | nil => rfl
  | cons p t ih =>
    by_cases hp : p.1 = k
    · simp [stripNotes, hp, ih]
      intro a b _
      by_cases ha : a = k <;> simp [ha]
    · simp [stripNotes, hp, ih]
      intro a b _
      by_cases ha : a = k <;> simp [ha]

theorem stripNotes_dictInsert (d : List (String × List (String × String)))
    (k : String) (v : List (String × String)) :
    stripNotes (dictInsert d k v) =
      dictInsert (stripNotes d) k (notesFilter v) := by
  unfold dictInsert
  by_cases hk : k ∈ d.map Prod.fst
  · rw [if_pos hk, if_pos (by rw [keys_stripNotes]; exact hk)]
    exact stripNotes_map_replace k v d
  · rw [if_neg hk, if_neg (by rw [keys_stripNotes]; exact hk)]
    simp [stripNotes]

theorem stripNotes_buildTransforms (targets : List String)
    (entry : Character → List (String × String)) (chars : List Character) :
    stripNotes (buildTransforms targets entry chars) =
      buildTransforms targets (fun c => notesFilter (entry c)) chars := by
  unfold buildTransforms
  suffices h : ∀ d, stripNotes (chars.foldl
      (fun d c =>
        if c.name ∈ targets then dictInsert d c.name (entry c) else d) d) =
      chars.foldl
        (fun d c =>
          if c.name ∈ targets then
            dictInsert d c.name (notesFilter (entry c))
          else d) (stripNotes d) by
    exact h []
  induction chars with
  | nil => intro d; rfl
  | cons c0 rest ih =>
    intro d
    simp only [List.foldl_cons]
    rw [ih]
    congr 1
    by_cases hc : c0.name ∈ targets
    · rw [if_pos hc, if_pos hc]
      exact stripNotes_dictInsert d c0.name (entry c0)
    · rw [if_neg hc, if_neg hc]

theorem stripNotes_transforms_eq (p : PanelMetadata) (v : String)
    (t : Option (List String)) :
    stripNotes (generate_spec_proto p v t).character_transforms =
      stripNotes (generate_spec_api p v t).character_transforms := by
  cases hg : pyStartsWith v "gender_swap" with
  | true => rw [transforms_proto_gender p v t hg, transforms_api_gender p v t hg]
  | false =>
    cases hd : pyStartsWith v "diverse" with
    | true =>
      rw [transforms_proto_diverse p v t hg hd,
        transforms_api_diverse p v t hg hd,
        stripNotes_buildTransforms, stripNotes_buildTransforms]
      have he : (fun c => notesFilter (diverseEntry_proto (ethnicityLookup v) c)) =
          (fun c => notesFilter (diverseEntry_api (ethnicityLookup v) c)) := by
        funext c
        rfl
      rw [he]
    | false =>
      cases ha : pyStartsWith v "age" with
      | true =>
        rw [transforms_proto_age p v t hg hd ha,
          transforms_api_age p v t hg hd ha,
          stripNotes_buildTransforms, stripNotes_buildTransforms]
        have he : (fun c => notesFilter (ageEntry_proto
            (if pyIn "younger" v then presetAgeYounger else presetAgeOlder) c)) =
            (fun c => notesFilter (ageEntry_api
              (if pyIn "younger" v then presetAgeYounger else presetAgeOlder) c)) := by
          funext c
          cases hy : pyIn "younger" v <;> simp [hy] <;> rfl
        rw [he]
      | false =>
        rw [transforms_proto_none p v t hg hd ha,
          transforms_api_none p v t hg hd ha]

/-- Claim C9, amended: the two generate_spec copies agree on every spec
field except that (a) the prototype adds an appearance_notes field to the
diverse and age transform records that the api copy omits — after
deleting appearance_notes fields the transform mappings coincide — and
(b) the similarity thresholds agree only when the panel is not a
conceptual_diagram panel lacking the clinical-review flag. -/
theorem claim_C9_amended (p : PanelMetadata) (v : String)
    (t : Option (List String)) :
    (generate_spec_proto p v t).source_panel_id =
      (generate_spec_api p v t).source_panel_id ∧
    (generate_spec_proto p v t).target_variant =
      (generate_spec_api p v t).target_variant ∧
    (generate_spec_proto p v t).preserve_pose =
      (generate_spec_api p v t).preserve_pose ∧
    (generate_spec_proto p v t).preserve_expression_type =
      (generate_spec_api p v t).preserve_expression_type ∧
    (generate_spec_proto p v t).preserve_composition =
      (generate_spec_api p v t).preserve_composition ∧
    (generate_spec_proto p v t).preserve_lighting =
      (generate_spec_api p v t).preserve_lighting ∧
    (generate_spec_proto p v t).preserve_therapeutic_elements =
      (generate_spec_api p v t).preserve_therapeutic_elements ∧
    (generate_spec_proto p v t).controlnet_mode =
      (generate_spec_api p v t).controlnet_mode ∧
    (generate_spec_proto p v t).controlnet_strength =
      (generate_spec_api p v t).controlnet_strength ∧
    (generate_spec_proto p v t).denoise_strength =
      (generate_spec_api p v t).denoise_strength ∧
    (generate_spec_proto p v t).emotion_must_match =
      (generate_spec_api p v t).emotion_must_match ∧
    stripNotes (generate_spec_proto p v t).character_transforms =
      stripNotes (generate_spec_api p v t).character_transforms ∧
    ((p.requires_clinical_review = true ∨
        p.category ≠ PanelCategory.conceptual_diagram) →
      (generate_spec_proto p v t).min_structural_similarity =
        (generate_spec_api p v t).min_structural_similarity) := by
  refine ⟨rfl, rfl, rfl, rfl, rfl, rfl, rfl, rfl, rfl, rfl, rfl,
    stripNotes_transforms_eq p v t, fun h => ?_⟩
  rw [min_sim_proto, min_sim_api]
  rcases h with h | h
  · rw [if_pos (Or.inl h), if_pos h]
  · by_cases hr : p.requires_clinical_review = true
    · rw [if_pos (Or.inl hr), if_pos hr]
    · rw [if_neg (by rintro (hh | hh); exacts [hr hh, h hh]),
        if_neg hr]

/-- Counterexample for claim C9 as stated: on the bed-distress sample
panel (category client_single, outside the exempted threshold case) the
two copies already return different character_transforms for age_older,
because only the prototype emits appearance_notes. -/
theorem claim_C9_counterexample :
    apiSamplePanel3.category ≠ PanelCategory.conceptual_diagram ∧
    (generate_spec_proto apiSamplePanel3 "age_older" none).character_transforms ≠
      (generate_spec_api apiSamplePanel3 "age_older" none).character_transforms :=
  ⟨by decide, by decide⟩

theorem startsWith_age_excl (v : String) (h : pyStartsWith v "age" = true) :
    pyStartsWith v "gender_swap" = false ∧
    pyStartsWith v "diverse" = false := by
  unfold pyStartsWith at h ⊢
  cases hv : v.data with
  | nil =>
    rw [hv] at h
    exact absurd h (by decide)
  | cons c cs =>
    rw [hv] at h
    have h' : (['a', 'g', 'e'] : List Char).isPrefixOf (c :: cs) = true := h
    simp only [List.isPrefixOf, Bool.and_eq_true, beq_iff_eq] at h'
    obtain ⟨hac, -⟩ := h'
    subst hac
    refine ⟨?_, ?_⟩
    · show (['g', 'e', 'n', 'd', 'e', 'r', '_', 's', 'w', 'a', 'p'] :
        List Char).isPrefixOf ('a' :: cs) = false
      simp only [List.isPrefixOf]
      rw [show (('g' : Char) == 'a') = false from rfl]
      rw [Bool.false_and]
    · show (['d', 'i', 'v', 'e', 'r', 's', 'e'] :
        List Char).isPrefixOf ('a' :: cs) = false
      simp only [List.isPrefixOf]
      rw [show (('d' : Char) == 'a') = false from rfl]
      rw [Bool.false_and]

theorem dictGet_nil_ne_some {α : Type} (k : String) (x : α)
    (h : dictGet ([] : List (String × α)) k = some x) : False := by
  simp [dictGet] at h

/-- Claim C10, amended: for every panel character whose name is in the
resolved target set, any variant string starting with age and not
containing younger gives that character the older preset entry (senior,
65-75) — so the transform map is non-empty — and any variant starting
with gender_swap and not containing female applies the female_to_male
preset, in both copies of generate_spec. -/
theorem claim_C10_amended (p : PanelMetadata) (t : Option (List String))
    (v : String) (c : Character) (hc : c ∈ p.characters)
    (hct : c.name ∈ resolveTargets p t) :
    ((pyStartsWith v "age" = true ∧ pyIn "younger" v = false) →
      ((generate_spec_proto p v t).character_transforms ≠ [] ∧
       (generate_spec_api p v t).character_transforms ≠ [] ∧
       (∃ e, dictGet (generate_spec_proto p v t).character_transforms
          c.name = some e ∧
         dictGet e "approximate_age" = some "senior" ∧
         dictGet e "age_range" = some "65-75") ∧
       (∃ e, dictGet (generate_spec_api p v t).character_transforms
          c.name = some e ∧
         dictGet e "approximate_age" = some "senior" ∧
         dictGet e "age_range" = some "65-75"))) ∧
    ((pyStartsWith v "gender_swap" = true ∧ pyIn "female" v = false) →
      ((∃ e, dictGet (generate_spec_proto p v t).character_transforms
          c.name = some e ∧
         dictGet e "gender" = some "male" ∧
         dictGet e "new_name" =
           some (nameTransform [("Ali", "Alex"), ("Rebecca", "Robert")]
             c.name)) ∧
       (∃ e, dictGet (generate_spec_api p v t).character_transforms
          c.name = some e ∧
         dictGet e "gender" = some "male" ∧
         dictGet e "new_name" =
           some (nameTransform [("Ali", "Alex"), ("Rebecca", "Robert")]
             c.name)))) := by
  constructor
  · rintro ⟨ha, hy⟩
    obtain ⟨hg, hd⟩ := startsWith_age_excl v ha
    have hbp := transforms_proto_age p v t hg hd ha
    have hba := transforms_api_age p v t hg hd ha
    simp only [hy, Bool.false_eq_true, if_false] at hbp hba
    obtain ⟨c1, _, hcn1, hget1⟩ :=
      dictGet_buildTransforms (resolveTargets p t)
        (ageEntry_proto presetAgeOlder) p.characters c.name hct ⟨c, hc, rfl⟩
    obtain ⟨c2, _, hcn2, hget2⟩ :=
      dictGet_buildTransforms (resolveTargets p t)
        (ageEntry_api presetAgeOlder) p.characters c.name hct ⟨c, hc, rfl⟩
    have hp1 : dictGet (generate_spec_proto p v t).character_transforms
        c.name = some (ageEntry_proto presetAgeOlder c1) := by
      rw [hbp]; exact hget1
    have hp2 : dictGet (generate_spec_api p v t).character_transforms
        c.name = some (ageEntry_api presetAgeOlder c2) := by
      rw [hba]; exact hget2
    refine ⟨?_, ?_, ⟨_, hp1, rfl, rfl⟩, ⟨_, hp2, rfl, rfl⟩⟩
    · intro heq
      rw [heq] at hp1
      exact dictGet_nil_ne_some _ _ hp1
    · intro heq
      rw [heq] at hp2
      exact dictGet_nil_ne_some _ _ hp2
  · rintro ⟨hg, hf⟩
    have hbp := transforms_proto_gender p v t hg
    have hba := transforms_api_gender p v t hg
    simp only [hf, Bool.false_eq_true, if_false] at hbp hba
    obtain ⟨c1, _, hcn1, hget1⟩ :=
      dictGet_buildTransforms (resolveTargets p t)
        (genderEntry presetFemaleToMale) p.characters c.name hct ⟨c, hc, rfl⟩
    obtain ⟨c2, _, hcn2, hget2⟩ :=
      dictGet_buildTransforms (resolveTargets p t)
        (genderEntry presetFemaleToMale) p.characters c.name hct ⟨c, hc, rfl⟩
    have hp1 : dictGet (generate_spec_proto p v t).character_transforms
        c.name = some (genderEntry presetFemaleToMale c1) := by
      rw [hbp]; exact hget1
    have hp2 : dictGet (generate_spec_api p v t).character_transforms
        c.name = some (genderEntry presetFemaleToMale c2) := by
      rw [hba]; exact hget2
    have hn1 : dictGet (genderEntry presetFemaleToMale c1) "new_name" =
        some (nameTransform [("Ali", "Alex"), ("Rebecca", "Robert")]
          c1.name) := rfl
    have hn2 : dictGet (genderEntry presetFemaleToMale c2) "new_name" =
        some (nameTransform [("Ali", "Alex"), ("Rebecca", "Robert")]
          c2.name) := rfl
    rw [hcn1] at hn1
    rw [hcn2] at hn2
    exact ⟨⟨_, hp1, rfl, hn1⟩, ⟨_, hp2, rfl, hn2⟩⟩

/-- Counterexample for claim C10 as stated: a non-empty resolved target
set naming no panel character still yields an empty transform map for an
age-family variant. -/
theorem claim_C10_counterexample :
    resolveTargets tinyPanel (some ["Bob"]) ≠ [] ∧
    pyStartsWith "age_x" "age" = true ∧
    pyIn "younger" "age_x" = false ∧
    (generate_spec_proto tinyPanel "age_x"
      (some ["Bob"])).character_transforms = [] ∧
    (generate_spec_api tinyPanel "age_x"
      (some ["Bob"])).character_transforms = [] :=
  ⟨by decide, by decide, by decide, by decide, by decide⟩

/-- Witness for the amended claim C10: on the bed-distress sample panel
with the out-of-catalog variant age_x and default targets, Leo receives
the older preset entry in both copies. -/
theorem claim_C10_witness :
    apiSampleLeoBed ∈ apiSamplePanel3.characters ∧
    apiSampleLeoBed.name ∈ resolveTargets apiSamplePanel3 none ∧
    ((generate_spec_proto apiSamplePanel3 "age_x"
        none).character_transforms ≠ [] ∧
     (generate_spec_api apiSamplePanel3 "age_x"
        none).character_transforms ≠ [] ∧
     (∃ e, dictGet (generate_spec_proto apiSamplePanel3 "age_x"
          none).character_transforms apiSampleLeoBed.name = some e ∧
       dictGet e "approximate_age" = some "senior" ∧
       dictGet e "age_range" = some "65-75") ∧
     (∃ e, dictGet (generate_spec_api apiSamplePanel3 "age_x"
          none).character_transforms apiSampleLeoBed.name = some e ∧
       dictGet e "approximate_age" = some "senior" ∧
       dictGet e "age_range" = some "65-75")) :=
  ⟨by decide, by decide,
    (claim_C10_amended apiSamplePanel3 none "age_x" apiSampleLeoBed
      (by decide) (by decide)).1 ⟨by decide, by decide⟩⟩
